import Mathlib

/-!
Shallow embedding of the movie-rating system's data-access core:
the SQLAlchemy models (`app/models/models.py`), the repository
(`app/repositories/movie_repository.py`), the service
(`app/services/movie_service.py`) and the rating/list endpoints of the
controller (`app/controller/movie_controller.py`).

The relational store is modelled as lists of rows; SQL queries become list
operations mirroring the SQLAlchemy query pipelines (filter, join fan-out,
DISTINCT as `dedup`, ORDER BY as a sort by id, OFFSET/LIMIT as drop/take).
`AVG` over the integer score column and the Python `round(x, 1)` applied to
it are modelled through the machine arithmetic the program actually uses:
the average is the IEEE-754 binary64 nearest to `sum / count` (the integer
sum is exact in binary64 for any realistic store; the single division rounds
to nearest, ties to even mantissa), and `round(x, 1)` then rounds that double
to the nearest tenth, ties on the exact dyadic value to even — so e.g. an
exact mean of `1.15` is reported as `1.1`, because the nearest double lies
below the tie.  Both roundings are carried out in exact integer arithmetic.
-/

/-- Row of the `genres` table (`models.Genre`). -/
structure Genre where
  id : Nat
  name : String
  description : Option String
deriving DecidableEq

/-- Row of the `directors` table (`models.Director`). -/
structure Director where
  id : Nat
  name : String
  birth_year : Option Int
  description : Option String
deriving DecidableEq

/-- Row of the `movies` table (`models.Movie`).  The `genre_ids` field holds
this movie's rows of the `movie_genres` association table, i.e. the ORM
relationship `Movie.genres` as a list of genre ids. -/
structure Movie where
  id : Nat
  title : String
  release_year : Int
  cast : Option String
  director_id : Option Nat
  genre_ids : List Nat
deriving DecidableEq

/-- A wall-clock instant, as the components that `strftime` renders.  The
`DateTime` column stores it; arithmetic on time is irrelevant here. -/
structure Timestamp where
  year : Nat
  month : Nat
  day : Nat
  hour : Nat
  minute : Nat
  second : Nat
deriving DecidableEq

/-- Row of the `movie_ratings` table (`models.MovieRating`); `rated_at` is the
server-assigned creation timestamp (`server_default=func.now()`). -/
structure MovieRating where
  id : Nat
  movie_id : Nat
  score : Int
  rated_at : Timestamp
deriving DecidableEq

/-- The relational store plus the autoincrement counters and the server clock
used for the next insert. -/
structure DB where
  directors : List Director
  genres : List Genre
  movies : List Movie
  ratings : List MovieRating
  nextMovieId : Nat
  nextRatingId : Nat
  now : Timestamp
deriving DecidableEq

/-! ### SQL `ILIKE` pattern matching

`Movie.title.ilike(f"%{title}%")` compares lower-cased strings against a SQL
LIKE pattern in which `%` matches any sequence and `_` any single character.
-/

/-- Helper for the `%` wildcard: `likeStar f s` is true iff `f` accepts some
suffix of `s`. -/
def likeStar (f : List Char → Bool) : List Char → Bool
  | [] => f []
  | c :: cs => f (c :: cs) || likeStar f cs

/-- SQL LIKE matching of a pattern against a string (both as char lists):
`%` matches any sequence, `_` any single character, anything else itself. -/
def likeM : List Char → List Char → Bool
  | [], s => s.isEmpty
  | p :: ps, s =>
    if p = '%' then likeStar (likeM ps) s
    else if p = '_' then
      match s with
      | [] => false
      | _ :: cs => likeM ps cs
    else
      match s with
      | [] => false
      | c :: cs => (c == p) && likeM ps cs

/-- Lower-cased character list of a string (SQL `lower`, ASCII case folding
like SQLite's). -/
def lowerStr (s : String) : List Char := s.toList.map Char.toLower

/-- The repository's `column.ilike(f"%{pat}%")` test: case-insensitive LIKE
with `%` added on both sides of the filter string. -/
def ilikeContains (pat s : String) : Bool :=
  likeM ('%' :: lowerStr pat ++ ['%']) (lowerStr s)

/-! ### Specification-side string containment

The spec reads the filter as "contains the filter string case-insensitively
as a substring".  These definitions follow the spec's words and are compared
with `ilikeContains` in the theorems. -/

/-- Boolean prefix test on char lists. -/
def isPrefixCB : List Char → List Char → Bool
  | [], _ => true
  | _ :: _, [] => false
  | a :: as, b :: bs => (a == b) && isPrefixCB as bs

/-- Boolean substring test on char lists: `p` occurs contiguously in `s`. -/
def isSubstrCB (p : List Char) : List Char → Bool
  | [] => p.isEmpty
  | c :: cs => isPrefixCB p (c :: cs) || isSubstrCB p cs

/-- Case-insensitive substring containment, following the spec's words:
"its title contains the filter string case-insensitively as a substring". -/
def specContainsCI (s pat : String) : Bool :=
  isSubstrCB (lowerStr pat) (lowerStr s)

/-- True iff the (lower-cased) filter string contains no LIKE wildcard. -/
def noWildcards (s : String) : Bool :=
  (lowerStr s).all (fun c => !(c == '%' || c == '_'))

namespace MovieRepository

/-- Scores of all rating rows of a movie, as read by the aggregation query
`func.avg(MovieRating.score), func.count(MovieRating.id)` filtered on
`MovieRating.movie_id == movie.id`. -/
def ratingScores (db : DB) (movieId : Nat) : List Int :=
  (db.ratings.filter (fun r => r.movie_id == movieId)).map MovieRating.score

/-- Round `a / b` (with `b > 0`) to the nearest integer with ties going to the
even neighbour, in exact integer arithmetic; models Python's `round` applied
to the exact quotient. -/
def roundHalfEven (a : Int) (b : Nat) : Int :=
  let f := Int.fdiv a b
  let r2 := 2 * (a - f * b)
  if r2 < (b : Int) then f
  else if (b : Int) < r2 then f + 1
  else if f % 2 == 0 then f else f + 1

/-- Number of fractional binary digits of the binary64 representation of
`sum / count`: `52 - ⌊log2 (sum / count)⌋`, resolved by integer comparisons.
Covers the score invariant's range `1 ≤ sum / count ≤ 10` (the only range
reachable when every score is in `[1, 10]`). -/
def binMantissaBits (sum : Int) (count : Nat) : Nat :=
  if sum < 2 * (count : Int) then 52
  else if sum < 4 * (count : Int) then 51
  else if sum < 8 * (count : Int) then 50
  else 49

/-- `round(float(avg), 1)` on the average of `sum` over `count` scores, as the
program computes it.  The SQL layer produces `AVG` as a binary64: the integer
sum is exact in binary64 (for any physically realistic row count) and the one
division rounds to the nearest double, ties to even mantissa — the inner
`roundHalfEven` of `sum * 2 ^ k / count` is exactly that mantissa, so the
double is `M / 2 ^ k`.  Python's `round(x, 1)` then rounds the double to the
nearest tenth, ties broken to even on the exact dyadic value (CPython rounds
the exact decimal expansion of the double) — the outer `roundHalfEven`.
Hence an exact mean of `1.15` yields `1.1`: the nearest double to `23 / 20`
is below the tie.  Faithful on the score invariant `1 ≤ sum / count ≤ 10`. -/
def avgRounded (sum : Int) (count : Nat) : ℚ :=
  (roundHalfEven
      (10 * roundHalfEven (sum * 2 ^ binMantissaBits sum count) count)
      (2 ^ binMantissaBits sum count) : ℚ) / 10

/-- The `average_rating` field:
`round(float(stats[0]), 1) if stats[0] else None`.  SQL `AVG` is `NULL` when
there are no rows, and Python truthiness also maps an average of exactly `0.0`
to `None`. -/
def averageRating (scores : List Int) : Option ℚ :=
  if scores.length ≠ 0 ∧ scores.sum ≠ 0 then
    some (avgRounded scores.sum scores.length)
  else none

/-- The director part of a response: `{"id", "name"}`, plus `birth_year` and
`description` only when `full_director` (`detail = none` means those two keys
are absent from the payload). -/
structure DirectorView where
  id : Nat
  name : String
  detail : Option (Option Int × Option String)
deriving DecidableEq

/-- The dictionary built by `MovieRepository._format_movie_response`. -/
structure MovieResponse where
  id : Nat
  title : String
  release_year : Int
  director : Option DirectorView
  genres : List String
  cast : Option String
  average_rating : Option ℚ
  ratings_count : Nat
deriving DecidableEq

/-- The ORM collection `movie.genres`: genre rows linked to the movie by the
association table, in genre-table order. -/
def movieGenres (db : DB) (m : Movie) : List Genre :=
  db.genres.filter (fun g => m.genre_ids.contains g.id)

/-- `db.query(Genre).filter(Genre.id.in_(ids)).all()` as association ids:
ids requested that exist in the genre table (unknown ids silently drop). -/
def resolveGenreIds (db : DB) (ids : List Nat) : List Nat :=
  (db.genres.filter (fun g => ids.contains g.id)).map Genre.id

/-- The `director` entry of a response (`None` when the movie has none). -/
def directorView (db : DB) (m : Movie) (full_director : Bool) : Option DirectorView :=
  match m.director_id.bind (fun did => db.directors.find? (fun d => d.id == did)) with
  | none => none
  | some d =>
    some { id := d.id, name := d.name,
           detail := if full_director then some (d.birth_year, d.description) else none }

/-- `MovieRepository._format_movie_response`: aggregation over the rating rows
plus the nested response shape. -/
def format_movie_response (db : DB) (m : Movie) (full_director : Bool) : MovieResponse :=
  { id := m.id
    title := m.title
    release_year := m.release_year
    director := directorView db m full_director
    genres := (movieGenres db m).map Genre.name
    cast := m.cast
    average_rating := averageRating (ratingScores db m.id)
    ratings_count := (ratingScores db m.id).length }

/-- `if title: query = query.filter(Movie.title.ilike(f"%{title}%"))` —
applied only when the argument is truthy (present and non-empty). -/
def applyTitleFilter (t : Option String) (l : List Movie) : List Movie :=
  match t with
  | none => l
  | some s => if s = "" then l else l.filter (fun m => ilikeContains s m.title)

/-- `if release_year: query = query.filter(Movie.release_year == release_year)`
— applied only when the argument is truthy (present and nonzero). -/
def applyYearFilter (y : Option Int) (l : List Movie) : List Movie :=
  match y with
  | none => l
  | some v => if v = 0 then l else l.filter (fun m => m.release_year == v)

/-- The movie query after the title and release-year filters. -/
def filteredMovies (db : DB) (t : Option String) (y : Option Int) : List Movie :=
  applyYearFilter y (applyTitleFilter t db.movies)

/-- `query.join(Movie.genres).filter(Genre.name.ilike(f"%{genre}%"))`: the
join fans each movie out to one row per associated genre whose name matches. -/
def genreJoinRows (db : DB) (g : String) (l : List Movie) : List Movie :=
  l.flatMap (fun m =>
    ((movieGenres db m).filter (fun gr => ilikeContains g gr.name)).map (fun _ => m))

/-- The row set of `get_all_movies` before `DISTINCT`: the genre join is added
only when the genre argument is truthy. -/
def queryRows (db : DB) (t : Option String) (y : Option Int) (g : Option String) : List Movie :=
  match g with
  | none => filteredMovies db t y
  | some s => if s = "" then filteredMovies db t y else genreJoinRows db s (filteredMovies db t y)

/-- `query.distinct()`: the row set de-duplicated. -/
def distinctRows (db : DB) (t : Option String) (y : Option Int) (g : Option String) : List Movie :=
  (queryRows db t y g).dedup

/-- Ordering used by `order_by(Movie.id.asc())`. -/
def byIdLe (a b : Movie) : Prop := a.id ≤ b.id

instance : DecidableRel byIdLe := fun a b => Nat.decLe a.id b.id

instance : IsTotal Movie byIdLe := ⟨fun a b => Nat.le_total a.id b.id⟩

instance : IsTrans Movie byIdLe := ⟨fun _ _ _ h h' => Nat.le_trans h h'⟩

/-- `order_by(Movie.id.asc())` on a row set. -/
def sortById (l : List Movie) : List Movie := l.insertionSort byIdLe

/-- `MovieRepository.get_all_movies(skip, limit, title, genre, release_year)`:
count over the distinct row set, then ORDER BY id ASC, OFFSET `skip`,
LIMIT `limit`, each row formatted with the abbreviated director. -/
def get_all_movies (db : DB) (skip limit : Nat)
    (title : Option String) (genre : Option String) (release_year : Option Int) :
    List MovieResponse × Nat :=
  let rows := distinctRows db title release_year genre
  let total_items := rows.length
  let movies := ((sortById rows).drop skip).take limit
  (movies.map (fun m => format_movie_response db m false), total_items)

/-- `MovieRepository.get_movie_details(movie_id)`: first movie row with the
given id, formatted with the full director, else `None`. -/
def get_movie_details (db : DB) (movie_id : Nat) : Option MovieResponse :=
  match db.movies.find? (fun m => m.id == movie_id) with
  | none => none
  | some m => some (format_movie_response db m true)

/-- Scalar attributes passed to `Movie(**movie_data)` on create, matching the
columns' nullability. -/
structure MovieData where
  title : String
  release_year : Int
  cast : Option String
  director_id : Option Nat
deriving DecidableEq

/-- `MovieRepository.create_movie(movie_data, genre_ids)`: new row with the
next id; `if genre_ids:` resolves the association set; the committed movie is
formatted with `full_director=False`. -/
def create_movie (db : DB) (movie_data : MovieData) (genre_ids : List Nat) :
    MovieResponse × DB :=
  let gids := if genre_ids.isEmpty then [] else resolveGenreIds db genre_ids
  let new_movie : Movie :=
    { id := db.nextMovieId
      title := movie_data.title
      release_year := movie_data.release_year
      cast := movie_data.cast
      director_id := movie_data.director_id
      genre_ids := gids }
  let db' := { db with movies := db.movies ++ [new_movie], nextMovieId := db.nextMovieId + 1 }
  (format_movie_response db' new_movie false, db')

/-- The update payload: `None` fields are skipped by
`if value is not None: setattr(movie, key, value)`. -/
structure MoviePatch where
  title : Option String
  release_year : Option Int
  cast : Option String
  director_id : Option Nat
deriving DecidableEq

/-- Apply the non-`None` fields of the patch over the existing row. -/
def applyPatch (m : Movie) (p : MoviePatch) : Movie :=
  { m with
    title := match p.title with | some v => v | none => m.title
    release_year := match p.release_year with | some v => v | none => m.release_year
    cast := match p.cast with | some v => some v | none => m.cast
    director_id := match p.director_id with | some v => some v | none => m.director_id }

/-- Replace the first row with the given id (the ORM mutates the single object
returned by `.first()`). -/
def replaceFirst (l : List Movie) (movieId : Nat) (m' : Movie) : List Movie :=
  match l with
  | [] => []
  | x :: xs => if x.id == movieId then m' :: xs else x :: replaceFirst xs movieId m'

/-- `MovieRepository.update_movie(movie_id, movie_data, genre_ids)`: `None`
when no row matches; otherwise non-`None` scalar fields overwrite, a provided
`genre_ids` (even `[]`) wholly replaces the association set, and the result is
`get_movie_details` on the committed state. -/
def update_movie (db : DB) (movie_id : Nat) (movie_data : MoviePatch)
    (genre_ids : Option (List Nat)) : Option MovieResponse × DB :=
  match db.movies.find? (fun m => m.id == movie_id) with
  | none => (none, db)
  | some m =>
    let base := applyPatch m movie_data
    let m' := { base with
      genre_ids := match genre_ids with
        | some ids => resolveGenreIds db ids
        | none => m.genre_ids }
    let db' := { db with movies := replaceFirst db.movies movie_id m' }
    (get_movie_details db' movie_id, db')

/-- `MovieRepository.delete_movie(movie_id)`: `False` when no row matches;
otherwise all rating rows with this `movie_id` are deleted, then the movie row
(its association rows go with it). -/
def delete_movie (db : DB) (movie_id : Nat) : Bool × DB :=
  match db.movies.find? (fun m => m.id == movie_id) with
  | none => (false, db)
  | some _ =>
    (true,
     { db with
       ratings := db.ratings.filter (fun r => !(r.movie_id == movie_id))
       movies := db.movies.eraseP (fun m => m.id == movie_id) })

/-- A value of the rating response dictionary. -/
inductive RVal where
  | nat : Nat → RVal
  | int : Int → RVal
  | str : String → RVal
deriving DecidableEq

/-- Zero-pad a number to two digits (`%m`, `%d`, `%H`, `%M`, `%S`). -/
def pad2 (n : Nat) : String := if n < 10 then "0" ++ toString n else toString n

/-- Zero-pad a number to four digits (`%Y`). -/
def pad4 (n : Nat) : String :=
  if n < 10 then "000" ++ toString n
  else if n < 100 then "00" ++ toString n
  else if n < 1000 then "0" ++ toString n
  else toString n

/-- `rated_at.strftime("%Y-%m-%dT%H:%M:%SZ")`. -/
def formatTimestamp (t : Timestamp) : String :=
  pad4 t.year ++ "-" ++ pad2 t.month ++ "-" ++ pad2 t.day ++ "T" ++
    pad2 t.hour ++ ":" ++ pad2 t.minute ++ ":" ++ pad2 t.second ++ "Z"

/-- `MovieRepository.add_rating(movie_id, score)`: inserts the rating row with
the server clock and returns the response dictionary, as ordered key/value
pairs. -/
def add_rating (db : DB) (movie_id : Nat) (score : Int) :
    List (String × RVal) × DB :=
  let new_rating : MovieRating :=
    { id := db.nextRatingId, movie_id := movie_id, score := score, rated_at := db.now }
  let db' := { db with ratings := db.ratings ++ [new_rating], nextRatingId := db.nextRatingId + 1 }
  ([("rating_id", RVal.nat new_rating.id),
    ("movie_id", RVal.nat new_rating.movie_id),
    ("score", RVal.int new_rating.score),
    ("rated_at", RVal.str (formatTimestamp new_rating.rated_at))], db')

end MovieRepository

namespace MovieService

/-- `MovieService.add_rating(movie_id, score)`: existence check through
`get_movie_details` before delegating to the repository. -/
def add_rating (db : DB) (movie_id : Nat) (score : Int) :
    Option (List (String × MovieRepository.RVal)) × DB :=
  match MovieRepository.get_movie_details db movie_id with
  | none => (none, db)
  | some _ =>
    let res := MovieRepository.add_rating db movie_id score
    (some res.1, res.2)

end MovieService

namespace MovieController

/-- Outcome of `POST /movies/{movie_id}/ratings`. -/
inductive RateResult where
  | invalidScore : RateResult
  | notFound : RateResult
  | ok : List (String × MovieRepository.RVal) → RateResult
deriving DecidableEq

/-- `rate_movie`: the validation boundary rejects a score outside `[1, 10]`
with HTTP 422 before the service runs; a missing movie maps to HTTP 404. -/
def rate_movie (db : DB) (movie_id : Nat) (score : Int) : RateResult × DB :=
  if score < 1 ∨ 10 < score then (RateResult.invalidScore, db)
  else
    match MovieService.add_rating db movie_id score with
    | (none, db') => (RateResult.notFound, db')
    | (some r, db') => (RateResult.ok r, db')

/-- `get_movies`: pagination math `skip = (page - 1) * size` in front of the
repository list query. -/
def get_movies (db : DB) (page size : Nat)
    (title : Option String) (genre : Option String) (release_year : Option Int) :
    List MovieRepository.MovieResponse × Nat :=
  MovieRepository.get_all_movies db ((page - 1) * size) size title genre release_year

end MovieController

/-! ### Specification-side match predicates

Derived predicates describing which movies a list query returns; the theorems
relate the query pipeline above to a single filter over the movie table. -/

/-- Title condition of a list query on one movie (true when the filter is
absent or falsy). -/
def titlePred (t : Option String) (m : Movie) : Bool :=
  match t with
  | none => true
  | some s => if s = "" then true else ilikeContains s m.title

/-- Release-year condition of a list query on one movie. -/
def yearPred (y : Option Int) (m : Movie) : Bool :=
  match y with
  | none => true
  | some v => if v = 0 then true else m.release_year == v

/-- Genre condition of a list query on one movie: some associated genre's
name matches. -/
def genrePred (db : DB) (g : Option String) (m : Movie) : Bool :=
  match g with
  | none => true
  | some s =>
    if s = "" then true
    else (MovieRepository.movieGenres db m).any (fun gr => ilikeContains s gr.name)

/-- Conjunction of the three filter conditions. -/
def matchesFilters (db : DB) (t : Option String) (y : Option Int) (g : Option String)
    (m : Movie) : Bool :=
  titlePred t m && yearPred y m && genrePred db g m

/-! ### Concrete stores used as counterexamples and witnesses -/

/-- A fixed instant matching the spec's timestamp example. -/
def ts0 : Timestamp := ⟨2024, 1, 15, 10, 30, 0⟩

/-- Store with one movie whose ratings are `[1, 1, 2]`. -/
def c1db : DB :=
  { directors := [], genres := []
    movies := [⟨1, "A", 2000, none, none, []⟩]
    ratings := [⟨1, 1, 1, ts0⟩, ⟨2, 1, 1, ts0⟩, ⟨3, 1, 2, ts0⟩]
    nextMovieId := 2, nextRatingId := 4, now := ts0 }

/-- Movie of `w1db`. -/
def w1m : Movie := ⟨1, "A", 2000, none, none, []⟩

/-- Store with one movie whose ratings are `[8, 10]`. -/
def w1db : DB :=
  { directors := [], genres := [], movies := [w1m]
    ratings := [⟨1, 1, 8, ts0⟩, ⟨2, 1, 10, ts0⟩]
    nextMovieId := 2, nextRatingId := 3, now := ts0 }

/-- Store with one movie linked to two genres both matching filter "sci". -/
def w2db : DB :=
  { directors := []
    genres := [⟨1, "Sci-Fi", none⟩, ⟨2, "Science", none⟩]
    movies := [⟨1, "A", 2000, none, none, [1, 2]⟩]
    ratings := [], nextMovieId := 2, nextRatingId := 1, now := ts0 }

/-- Store with three movies listed out of id order. -/
def w3db : DB :=
  { directors := [], genres := []
    movies := [⟨2, "B", 2001, none, none, []⟩, ⟨1, "A", 2000, none, none, []⟩,
               ⟨3, "C", 2002, none, none, []⟩]
    ratings := [], nextMovieId := 4, nextRatingId := 1, now := ts0 }

/-- Store with one movie titled "abc". -/
def c4db : DB :=
  { directors := [], genres := []
    movies := [⟨1, "abc", 2000, none, none, []⟩]
    ratings := [], nextMovieId := 2, nextRatingId := 1, now := ts0 }

/-- Movie of `w4db`. -/
def w4m : Movie := ⟨1, "Inception", 2010, none, none, [1]⟩

/-- Store with one movie in genre "Action". -/
def w4db : DB :=
  { directors := [], genres := [⟨1, "Action", none⟩]
    movies := [w4m]
    ratings := [], nextMovieId := 2, nextRatingId := 1, now := ts0 }

/-- Store with one director who has a birth year and a description. -/
def c5db : DB :=
  { directors := [⟨7, "Rob", some 1937, some "bio"⟩], genres := []
    movies := [], ratings := [], nextMovieId := 1, nextRatingId := 1, now := ts0 }

/-- Attributes of the movie created in `c5db`. -/
def c5data : MovieRepository.MovieData := ⟨"New", 2000, none, some 7⟩

/-- Store with genres 1 and 2 (and no genre 999). -/
def w5db : DB :=
  { directors := [], genres := [⟨1, "G1", none⟩, ⟨2, "G2", none⟩]
    movies := [], ratings := [], nextMovieId := 1, nextRatingId := 1, now := ts0 }

/-- Attributes of the movie created in `w5db`. -/
def w5data : MovieRepository.MovieData := ⟨"M", 1999, none, none⟩

/-- Movie of `w6db`, with a cast, a director and two genre links. -/
def w6m : Movie := ⟨1, "Old", 1990, some "X", some 7, [1, 2]⟩

/-- Store for the update witness. -/
def w6db : DB :=
  { directors := [⟨7, "Rob", some 1937, some "bio"⟩]
    genres := [⟨1, "G1", none⟩, ⟨2, "G2", none⟩]
    movies := [w6m], ratings := [], nextMovieId := 2, nextRatingId := 1, now := ts0 }

/-- Title-only update patch. -/
def w6patch : MovieRepository.MoviePatch := ⟨some "New", none, none, none⟩

/-- Movie with id 5 of `w7db`. -/
def w7m : Movie := ⟨5, "D", 1995, none, none, [1]⟩

/-- Store with movie 5 carrying three ratings. -/
def w7db : DB :=
  { directors := [], genres := [⟨1, "G1", none⟩]
    movies := [w7m]
    ratings := [⟨1, 5, 7, ts0⟩, ⟨2, 5, 8, ts0⟩, ⟨3, 5, 9, ts0⟩]
    nextMovieId := 6, nextRatingId := 4, now := ts0 }

/-- Store with movie 1 and no movie 2. -/
def w8db : DB :=
  { directors := [], genres := []
    movies := [⟨1, "A", 2000, none, none, []⟩]
    ratings := [], nextMovieId := 2, nextRatingId := 1, now := ts0 }

/-- Empty store for the rating-record counterexample. -/
def c9db : DB :=
  { directors := [], genres := [], movies := [], ratings := []
    nextMovieId := 1, nextRatingId := 1, now := ts0 }

/-! ### Helper lemmas -/

open MovieRepository in
theorem filteredMovies_title_falsy (db : DB) (y : Option Int) :
    filteredMovies db (some "") y = filteredMovies db none y := by
  simp [filteredMovies, applyTitleFilter]

open MovieRepository in
theorem filteredMovies_year_falsy (db : DB) (t : Option String) :
    filteredMovies db t (some 0) = filteredMovies db t none := by
  simp [filteredMovies, applyYearFilter]

open MovieRepository in
theorem queryRows_congr (db : DB) {t t' : Option String} {y y' : Option Int}
    (g : Option String) (h : filteredMovies db t y = filteredMovies db t' y') :
    queryRows db t y g = queryRows db t' y' g := by
  cases g with
  | none => exact h
  | some s => simp [queryRows, h]

open MovieRepository in
theorem distinctRows_title_falsy (db : DB) (y : Option Int) (g : Option String) :
    distinctRows db (some "") y g = distinctRows db none y g := by
  unfold distinctRows
  rw [queryRows_congr db g (filteredMovies_title_falsy db y)]

open MovieRepository in
theorem distinctRows_year_falsy (db : DB) (t : Option String) (g : Option String) :
    distinctRows db t (some 0) g = distinctRows db t none g := by
  unfold distinctRows
  rw [queryRows_congr db g (filteredMovies_year_falsy db t)]

open MovieRepository in
theorem distinctRows_genre_falsy (db : DB) (t : Option String) (y : Option Int) :
    distinctRows db t y (some "") = distinctRows db t y none := by
  simp [distinctRows, queryRows]

/-! ### Claim theorems -/

/-- C10: a list query given `title = ""`, `genre = ""` or `release_year = 0`
applies no corresponding filter: the result (items and total count) equals
that of the same query with the filter omitted, because each filter is
applied only when its argument is truthy. -/
theorem C10_falsy_filters_ignored (db : DB) (skip limit : Nat)
    (t g : Option String) (y : Option Int) :
    MovieRepository.get_all_movies db skip limit (some "") g y
        = MovieRepository.get_all_movies db skip limit none g y ∧
    MovieRepository.get_all_movies db skip limit t (some "") y
        = MovieRepository.get_all_movies db skip limit t none y ∧
    MovieRepository.get_all_movies db skip limit t g (some 0)
        = MovieRepository.get_all_movies db skip limit t g none := by
  refine ⟨?_, ?_, ?_⟩ <;> simp only [MovieRepository.get_all_movies]
  · rw [distinctRows_title_falsy]
  · rw [distinctRows_genre_falsy]
  · rw [distinctRows_year_falsy]

/-- C9 counterexample: the repository's rating record exposes its timestamp
under the key `rated_at`, not `created_at` as the claim states. -/
theorem C9_created_at_counterexample :
    (MovieRepository.add_rating c9db 1 7).1.map Prod.fst
        = ["rating_id", "movie_id", "score", "rated_at"] ∧
    "created_at" ∉ (MovieRepository.add_rating c9db 1 7).1.map Prod.fst := by
  refine ⟨rfl, by decide⟩

/-- C9 amended: a successful repository `add_rating` returns exactly the
fields `rating_id`, `movie_id`, `score` and `rated_at`, where `rated_at` is
the server-assigned creation timestamp rendered as ISO-8601 UTC
`YYYY-MM-DDTHH:MM:SSZ` (second precision, literal `Z`), e.g.
`2024-01-15T10:30:00Z`. -/
theorem C9_rating_record (db : DB) (movie_id : Nat) (score : Int) :
    (MovieRepository.add_rating db movie_id score).1 =
      [("rating_id", MovieRepository.RVal.nat db.nextRatingId),
       ("movie_id", MovieRepository.RVal.nat movie_id),
       ("score", MovieRepository.RVal.int score),
       ("rated_at", MovieRepository.RVal.str (MovieRepository.formatTimestamp db.now))] ∧
    MovieRepository.formatTimestamp ⟨2024, 1, 15, 10, 30, 0⟩ = "2024-01-15T10:30:00Z" :=
  ⟨rfl, by decide⟩

/-- C8: a score outside `[1, 10]` is rejected at the validation boundary with
the store untouched; with a valid score but no matching movie, the service
returns an absent value without writing any rating row; only when the movie
exists does the endpoint delegate to the repository's `add_rating`. -/
theorem C8_rating_validation (db : DB) (movie_id : Nat) (score : Int) :
    ((score < 1 ∨ 10 < score) →
        MovieController.rate_movie db movie_id score
          = (MovieController.RateResult.invalidScore, db)) ∧
    (MovieRepository.get_movie_details db movie_id = none →
        MovieService.add_rating db movie_id score = (none, db)) ∧
    (1 ≤ score → score ≤ 10 → MovieRepository.get_movie_details db movie_id = none →
        MovieController.rate_movie db movie_id score
          = (MovieController.RateResult.notFound, db)) ∧
    (1 ≤ score → score ≤ 10 →
        ∀ r, MovieRepository.get_movie_details db movie_id = some r →
        MovieController.rate_movie db movie_id score
          = (MovieController.RateResult.ok (MovieRepository.add_rating db movie_id score).1,
             (MovieRepository.add_rating db movie_id score).2)) := by
  refine ⟨?_, ?_, ?_, ?_⟩
  · intro h
    simp [MovieController.rate_movie, if_pos h]
  · intro h
    simp [MovieService.add_rating, h]
  · intro h1 h2 h
    have hc : ¬(score < 1 ∨ 10 < score) := by omega
    simp [MovieController.rate_movie, if_neg hc, MovieService.add_rating, h]
  · intro h1 h2 r h
    have hc : ¬(score < 1 ∨ 10 < score) := by omega
    simp [MovieController.rate_movie, if_neg hc, MovieService.add_rating, h]

/-- C8 witness: in `w8db` (movie 1 exists, movie 2 does not), score 11 is
rejected, rating movie 2 is not-found with the store unchanged, and rating
movie 1 with score 7 delegates to the repository. -/
theorem C8_rating_validation_witness :
    MovieController.rate_movie w8db 2 11 = (MovieController.RateResult.invalidScore, w8db) ∧
    MovieService.add_rating w8db 2 7 = (none, w8db) ∧
    MovieController.rate_movie w8db 2 7 = (MovieController.RateResult.notFound, w8db) ∧
    MovieController.rate_movie w8db 1 7
      = (MovieController.RateResult.ok (MovieRepository.add_rating w8db 1 7).1,
         (MovieRepository.add_rating w8db 1 7).2) := by
  refine ⟨(C8_rating_validation w8db 2 11).1 (by decide),
          (C8_rating_validation w8db 2 7).2.1 (by decide),
          (C8_rating_validation w8db 2 7).2.2.1 (by decide) (by decide) (by decide),
          (C8_rating_validation w8db 1 7).2.2.2 (by decide) (by decide) _ rfl⟩

/-- C1 counterexample: with ratings `[1, 1, 2]`, the reported average is the
rounded value `1.3`, not the arithmetic mean `4/3`, so the aggregation does
not compute the arithmetic mean itself.  Moreover the rounding goes through
the binary double: 20 ratings summing to 23 (exact mean `1.15`, all scores in
`[1, 10]`) report `1.1` — the nearest double to `23/20` lies below the
decimal tie — not the mean and not `1.2`. -/
theorem C1_mean_counterexample :
    (MovieRepository.get_movie_details c1db 1).map MovieRepository.MovieResponse.average_rating
        = some (some ((13 : ℚ) / 10)) ∧
    ((13 : ℚ) / 10) ≠ ((1 : ℚ) + 1 + 2) / 3 ∧
    MovieRepository.avgRounded 23 20 = (11 : ℚ) / 10 ∧
    ((11 : ℚ) / 10) ≠ (23 : ℚ) / 20 := by
  refine ⟨?_, by norm_num, ?_, by norm_num⟩
  · have key : MovieRepository.avgRounded 4 3 = (13 : ℚ) / 10 := by
      have h : MovieRepository.roundHalfEven
          (10 * MovieRepository.roundHalfEven (4 * 2 ^ MovieRepository.binMantissaBits 4 3) 3)
          (2 ^ MovieRepository.binMantissaBits 4 3) = 13 := by decide
      unfold MovieRepository.avgRounded
      rw [h]
      norm_num
    have e : (MovieRepository.get_movie_details c1db 1).map
        MovieRepository.MovieResponse.average_rating
        = some (some (MovieRepository.avgRounded 4 3)) := rfl
    rw [e, key]
  · have h : MovieRepository.roundHalfEven
        (10 * MovieRepository.roundHalfEven (23 * 2 ^ MovieRepository.binMantissaBits 23 20) 20)
        (2 ^ MovieRepository.binMantissaBits 23 20) = 11 := by decide
    unfold MovieRepository.avgRounded
    rw [h]
    norm_num

/-- C1 amended: the aggregation used by list and get_details reports the
count of the movie's ratings and, when there is at least one rating, the
arithmetic mean of the scores as the program's machine arithmetic produces
it: converted to the nearest binary64 double (ties to even mantissa) and then
rounded by Python's `round` to the nearest tenth, ties on the exact double
value to even; when the movie has zero ratings, average_rating is an explicit
absent value (not 0) and ratings_count is 0. -/
theorem C1_aggregation (db : DB) (m : Movie) (full : Bool)
    (hscores : ∀ r ∈ db.ratings, 1 ≤ r.score ∧ r.score ≤ 10) :
    (MovieRepository.format_movie_response db m full).ratings_count
        = (MovieRepository.ratingScores db m.id).length ∧
    (MovieRepository.ratingScores db m.id = [] →
        (MovieRepository.format_movie_response db m full).average_rating = none) ∧
    (MovieRepository.ratingScores db m.id ≠ [] →
        (MovieRepository.format_movie_response db m full).average_rating
          = some (MovieRepository.avgRounded (MovieRepository.ratingScores db m.id).sum
              (MovieRepository.ratingScores db m.id).length)) := by
  refine ⟨rfl, ?_, ?_⟩
  · intro h
    simp [MovieRepository.format_movie_response, MovieRepository.averageRating, h]
  · intro h
    have hpos : ∀ x ∈ MovieRepository.ratingScores db m.id, 0 < x := by
      intro x hx
      obtain ⟨r, hr, rfl⟩ := List.mem_map.mp hx
      exact lt_of_lt_of_le Int.zero_lt_one (hscores r (List.mem_filter.mp hr).1).1
    have hsum : 0 < (MovieRepository.ratingScores db m.id).sum :=
      List.sum_pos _ hpos h
    have hlen : (MovieRepository.ratingScores db m.id).length ≠ 0 := by
      simpa [List.length_eq_zero] using h
    show MovieRepository.averageRating (MovieRepository.ratingScores db m.id) = _
    rw [MovieRepository.averageRating, if_pos ⟨hlen, hsum.ne'⟩]

/-- C1 witness: the movie of `w1db` has ratings `[8, 10]`; the response
reports ratings_count 2 and average_rating 9.0. -/
theorem C1_aggregation_witness :
    (MovieRepository.format_movie_response w1db w1m true).ratings_count = 2 ∧
    (MovieRepository.format_movie_response w1db w1m true).average_rating = some 9 := by
  have h := C1_aggregation w1db w1m true (by decide)
  refine ⟨h.1, ?_⟩
  rw [h.2.2 (by decide)]
  have hs : MovieRepository.ratingScores w1db w1m.id = [8, 10] := rfl
  rw [hs]
  have hsum : List.sum [(8 : Int), 10] = 18 := by decide
  have hlen : List.length [(8 : Int), 10] = 2 := by decide
  rw [hsum, hlen]
  have hr : MovieRepository.roundHalfEven
      (10 * MovieRepository.roundHalfEven (18 * 2 ^ MovieRepository.binMantissaBits 18 2) 2)
      (2 ^ MovieRepository.binMantissaBits 18 2) = 90 := by decide
  unfold MovieRepository.avgRounded
  rw [hr]
  norm_num

/-- C5 counterexample: creating a movie in `c5db` with director 7 (who has a
birth year and a description) returns the director in summary form (no
birth_year/description keys), while the detail view of the same new movie
expands them — so create does not return the full detail view. -/
theorem C5_full_director_counterexample :
    (MovieRepository.create_movie c5db c5data []).1.director
        = some ⟨7, "Rob", none⟩ ∧
    (MovieRepository.get_movie_details (MovieRepository.create_movie c5db c5data []).2 1).map
        MovieRepository.MovieResponse.director
        = some (some ⟨7, "Rob", some (some 1937, some "bio")⟩) :=
  ⟨rfl, rfl⟩

/-- The director entry of any response formatted with `full_director=False` is
the summary form. -/
theorem directorView_of_not_full (db : DB) (m : Movie) :
    MovieRepository.directorView db m false
      = (m.director_id.bind (fun did => db.directors.find? (fun dr => dr.id == did))).map
          (fun dr => ⟨dr.id, dr.name, none⟩) := by
  unfold MovieRepository.directorView
  cases m.director_id.bind (fun did => db.directors.find? (fun dr => dr.id == did)) <;> rfl

/-- Filtering the genre table by membership in a resolved id list is the same
as filtering by the requested id list. -/
theorem resolveGenreIds_filter (db : DB) (ids : List Nat) :
    db.genres.filter (fun g => (MovieRepository.resolveGenreIds db ids).contains g.id)
      = db.genres.filter (fun g => ids.contains g.id) := by
  apply List.filter_congr
  intro g hg
  rw [Bool.eq_iff_iff]
  constructor
  · intro hc
    have hmem : g.id ∈ MovieRepository.resolveGenreIds db ids := by simpa using hc
    obtain ⟨g', hg', hid⟩ := List.mem_map.mp
      (show g.id ∈ (db.genres.filter (fun g => ids.contains g.id)).map Genre.id from hmem)
    have h2 := List.mem_filter.mp hg'
    have h3 : g'.id ∈ ids := by simpa using h2.2
    rw [hid] at h3
    simpa using h3
  · intro hc
    have hmem : g.id ∈ ids := by simpa using hc
    have hin : g.id ∈ MovieRepository.resolveGenreIds db ids :=
      List.mem_map.mpr ⟨g, List.mem_filter.mpr ⟨hg, by simpa using hmem⟩, rfl⟩
    simpa using hin

/-- C5 amended: create sets the new movie's genre associations to exactly the
genres whose ids exist (ids with no matching row are silently ignored) and
returns the detail view of the new movie with the director in summary form
(id and name only, not expanded to full detail), the empty rating set yielding
a null average and count 0. -/
theorem C5_create (db : DB) (d : MovieRepository.MovieData) (genre_ids : List Nat)
    (hfresh : ∀ r ∈ db.ratings, r.movie_id ≠ db.nextMovieId) :
    (MovieRepository.create_movie db d genre_ids).1.average_rating = none ∧
    (MovieRepository.create_movie db d genre_ids).1.ratings_count = 0 ∧
    (MovieRepository.create_movie db d genre_ids).1.genres
        = (db.genres.filter (fun g => genre_ids.contains g.id)).map Genre.name ∧
    (MovieRepository.create_movie db d genre_ids).1.director
        = (d.director_id.bind (fun did => db.directors.find? (fun dr => dr.id == did))).map
            (fun dr => ⟨dr.id, dr.name, none⟩) ∧
    (MovieRepository.create_movie db d genre_ids).2.movies
        = db.movies ++ [⟨db.nextMovieId, d.title, d.release_year, d.cast, d.director_id,
            MovieRepository.resolveGenreIds db genre_ids⟩] := by
  have hres : (if genre_ids.isEmpty then [] else MovieRepository.resolveGenreIds db genre_ids)
      = MovieRepository.resolveGenreIds db genre_ids := by
    cases genre_ids with
    | nil => simp [MovieRepository.resolveGenreIds]
    | cons a l => rfl
  have hscores : MovieRepository.ratingScores
      (MovieRepository.create_movie db d genre_ids).2 db.nextMovieId = [] := by
    show (db.ratings.filter (fun r => r.movie_id == db.nextMovieId)).map MovieRating.score = []
    have : db.ratings.filter (fun r => r.movie_id == db.nextMovieId) = [] := by
      rw [List.filter_eq_nil_iff]
      intro r hr
      simpa using hfresh r hr
    rw [this, List.map_nil]
  refine ⟨?_, ?_, ?_, ?_, ?_⟩
  · show MovieRepository.averageRating (MovieRepository.ratingScores
        (MovieRepository.create_movie db d genre_ids).2 db.nextMovieId) = none
    rw [hscores]
    simp [MovieRepository.averageRating]
  · show (MovieRepository.ratingScores
        (MovieRepository.create_movie db d genre_ids).2 db.nextMovieId).length = 0
    rw [hscores]
    rfl
  · show (MovieRepository.movieGenres (MovieRepository.create_movie db d genre_ids).2
        ⟨db.nextMovieId, d.title, d.release_year, d.cast, d.director_id,
          if genre_ids.isEmpty then [] else MovieRepository.resolveGenreIds db genre_ids⟩).map
        Genre.name
        = (db.genres.filter (fun g => genre_ids.contains g.id)).map Genre.name
    rw [hres]
    show (db.genres.filter
        (fun g => (MovieRepository.resolveGenreIds db genre_ids).contains g.id)).map Genre.name
        = (db.genres.filter (fun g => genre_ids.contains g.id)).map Genre.name
    rw [resolveGenreIds_filter]
  · show MovieRepository.directorView (MovieRepository.create_movie db d genre_ids).2
        ⟨db.nextMovieId, d.title, d.release_year, d.cast, d.director_id,
          if genre_ids.isEmpty then [] else MovieRepository.resolveGenreIds db genre_ids⟩ false
        = (d.director_id.bind (fun did => db.directors.find? (fun dr => dr.id == did))).map
            (fun dr => ⟨dr.id, dr.name, none⟩)
    exact directorView_of_not_full _ _
  · show db.movies ++ [(⟨db.nextMovieId, d.title, d.release_year, d.cast, d.director_id,
        if genre_ids.isEmpty then [] else MovieRepository.resolveGenreIds db genre_ids⟩ : Movie)]
        = db.movies ++ [⟨db.nextMovieId, d.title, d.release_year, d.cast, d.director_id,
            MovieRepository.resolveGenreIds db genre_ids⟩]
    rw [hres]

/-- C5 witness: creating in `w5db` with genre ids `[1, 2, 999]` (999 absent)
associates genres 1 and 2 only, with a null average and zero count. -/
theorem C5_create_witness :
    (MovieRepository.create_movie w5db w5data [1, 2, 999]).1.genres = ["G1", "G2"] ∧
    (MovieRepository.create_movie w5db w5data [1, 2, 999]).1.average_rating = none ∧
    (MovieRepository.create_movie w5db w5data [1, 2, 999]).1.ratings_count = 0 ∧
    (MovieRepository.create_movie w5db w5data [1, 2, 999]).2.movies
        = [⟨1, "M", 1999, none, none, [1, 2]⟩] := by
  have h := C5_create w5db w5data [1, 2, 999] (by decide)
  exact ⟨h.2.2.1, h.1, h.2.1, h.2.2.2.2⟩

/-- C6: update on a missing id returns an explicit absent value with the store
unchanged; on an existing movie only the provided non-null fields overwrite
(omitted fields keep their prior value), a provided genre_ids (even `[]`)
wholly replaces the genre set while an omitted one leaves it untouched, and
the result is the detail view of the committed state. -/
theorem C6_update (db : DB) (movie_id : Nat) (p : MovieRepository.MoviePatch)
    (genre_ids : Option (List Nat)) :
    (db.movies.find? (fun m => m.id == movie_id) = none →
        MovieRepository.update_movie db movie_id p genre_ids = (none, db)) ∧
    (∀ m, db.movies.find? (fun m => m.id == movie_id) = some m →
        (MovieRepository.update_movie db movie_id p genre_ids).2.movies
            = MovieRepository.replaceFirst db.movies movie_id
                ⟨m.id,
                 p.title.getD m.title,
                 p.release_year.getD m.release_year,
                 (match p.cast with | some v => some v | none => m.cast),
                 (match p.director_id with | some v => some v | none => m.director_id),
                 (match genre_ids with
                   | some ids => MovieRepository.resolveGenreIds db ids
                   | none => m.genre_ids)⟩ ∧
        (MovieRepository.update_movie db movie_id p genre_ids).1
            = MovieRepository.get_movie_details
                (MovieRepository.update_movie db movie_id p genre_ids).2 movie_id) := by
  constructor
  · intro h
    simp [MovieRepository.update_movie, h]
  · intro m hm
    constructor
    · simp only [MovieRepository.update_movie, hm]
      obtain ⟨pt, py, pc, pd⟩ := p
      cases pt <;> cases py <;> cases pc <;> cases pd <;> cases genre_ids <;>
        simp [MovieRepository.applyPatch, Option.getD]
    · simp only [MovieRepository.update_movie, hm]

/-- C6 witness: in `w6db`, updating movie 1 with only a new title and
`genre_ids = []` keeps release year, cast and director, replaces the title,
and clears the genre associations. -/
theorem C6_update_witness :
    (MovieRepository.update_movie w6db 1 w6patch (some [])).2.movies
        = MovieRepository.replaceFirst w6db.movies 1 ⟨1, "New", 1990, some "X", some 7, []⟩ ∧
    (MovieRepository.update_movie w6db 1 w6patch (some [])).1
        = MovieRepository.get_movie_details
            (MovieRepository.update_movie w6db 1 w6patch (some [])).2 1 := by
  have h := (C6_update w6db 1 w6patch (some [])).2 w6m rfl
  exact ⟨h.1, h.2⟩

/-- C7: delete returns true iff a movie with the given id existed; it removes
all of that movie's rating rows (its genre association rows live in the movie
row and go with it), a subsequent details lookup returns an absent value, a
second delete returns false, and deleting a missing id leaves the store
unchanged. -/
theorem C7_delete (db : DB) (movie_id : Nat)
    (hnd : (db.movies.map Movie.id).Nodup) :
    ((∀ m ∈ db.movies, m.id ≠ movie_id) →
        MovieRepository.delete_movie db movie_id = (false, db)) ∧
    (∀ m ∈ db.movies, m.id = movie_id →
        (MovieRepository.delete_movie db movie_id).1 = true ∧
        (MovieRepository.delete_movie db movie_id).2.ratings
            = db.ratings.filter (fun r => !(r.movie_id == movie_id)) ∧
        MovieRepository.get_movie_details (MovieRepository.delete_movie db movie_id).2 movie_id
            = none ∧
        (MovieRepository.delete_movie (MovieRepository.delete_movie db movie_id).2 movie_id).1
            = false) := by
  constructor
  · intro h
    have hf : db.movies.find? (fun m => m.id == movie_id) = none := by
      rw [List.find?_eq_none]
      intro x hx
      simpa using h x hx
    simp [MovieRepository.delete_movie, hf]
  · intro m hm hid
    have hsome : (db.movies.find? (fun m => m.id == movie_id)).isSome := by
      rw [List.find?_isSome]
      exact ⟨m, hm, by simp [hid]⟩
    obtain ⟨m', hm'⟩ := Option.isSome_iff_exists.mp hsome
    have herased : ∀ x ∈ db.movies.eraseP (fun m => m.id == movie_id),
        ¬((fun m => m.id == movie_id) x = true) := by
      obtain ⟨a, l₁, l₂, hl₁, hpa, hsplit, herase⟩ :=
        List.exists_of_eraseP hm (p := fun m => m.id == movie_id) (by simp [hid])
      rw [herase]
      intro x hx
      rcases List.mem_append.mp hx with h1 | h2
      · exact hl₁ x h1
      · intro hpx
        have hsub : (a :: l₂).Sublist (l₁ ++ a :: l₂) := List.sublist_append_right _ _
        have hnd2 : ((a :: l₂).map Movie.id).Nodup := by
          refine List.Sublist.nodup (List.Sublist.map Movie.id hsub) ?_
          rw [← hsplit]
          exact hnd
        have hnotin : a.id ∉ l₂.map Movie.id := (List.nodup_cons.mp hnd2).1
        have hax : (a.id : Nat) = movie_id := by simpa using hpa
        have hxx : x.id = movie_id := by simpa using hpx
        exact hnotin (List.mem_map.mpr ⟨x, h2, by rw [hxx, hax]⟩)
    have hfind2 : (db.movies.eraseP (fun m => m.id == movie_id)).find?
        (fun m => m.id == movie_id) = none := by
      rw [List.find?_eq_none]
      exact herased
    refine ⟨?_, ?_, ?_, ?_⟩
    · simp [MovieRepository.delete_movie, hm']
    · simp [MovieRepository.delete_movie, hm']
    · simp only [MovieRepository.delete_movie, hm']
      simp [MovieRepository.get_movie_details, hfind2]
    · simp only [MovieRepository.delete_movie, hm']
      simp [MovieRepository.delete_movie, hfind2]

/-- C7 witness: deleting movie 5 of `w7db` (which has 3 ratings) succeeds,
removes all 3 rating rows, makes a details lookup return an absent value, and
a second delete returns false. -/
theorem C7_delete_witness :
    (MovieRepository.delete_movie w7db 5).1 = true ∧
    (MovieRepository.delete_movie w7db 5).2.ratings = [] ∧
    MovieRepository.get_movie_details (MovieRepository.delete_movie w7db 5).2 5 = none ∧
    (MovieRepository.delete_movie (MovieRepository.delete_movie w7db 5).2 5).1 = false := by
  have h := (C7_delete w7db 5 (by decide)).2 w7m (by decide) rfl
  exact ⟨h.1, h.2.1, h.2.2.1, h.2.2.2⟩

/-- De-duplicating a block of copies of `m` in front of a list avoiding `m`
keeps `m` exactly once (or not at all when the block is empty). -/
theorem dedup_replicate_append {α : Type} [DecidableEq α] (m : α) (L : List α) (k : Nat)
    (hm : m ∉ L) :
    (List.replicate k m ++ L).dedup = if k = 0 then L.dedup else m :: L.dedup := by
  induction k with
  | zero => simp
  | succ n ih =>
    rw [List.replicate_succ, List.cons_append]
    by_cases hn : n = 0
    · subst hn
      rw [List.replicate_zero, List.nil_append, List.dedup_cons_of_not_mem hm]
      simp
    · have hmem : m ∈ List.replicate n m ++ L :=
        List.mem_append.mpr (Or.inl (List.mem_replicate.mpr ⟨hn, rfl⟩))
      rw [List.dedup_cons_of_mem hmem, ih]
      simp [hn]

/-- De-duplicating the genre join's fan-out rows over a duplicate-free movie
list yields each movie with at least one matching genre exactly once, in
order. -/
theorem genreJoinRows_dedup (db : DB) (g : String) (l : List Movie) (hl : l.Nodup) :
    (MovieRepository.genreJoinRows db g l).dedup
      = l.filter (fun m => (MovieRepository.movieGenres db m).any
          (fun gr => ilikeContains g gr.name)) := by
  induction l with
  | nil => rfl
  | cons m rest ih =>
    obtain ⟨hm, hrest⟩ := List.nodup_cons.mp hl
    have hrep : ((MovieRepository.movieGenres db m).filter
          (fun gr => ilikeContains g gr.name)).map (fun _ => m)
        = List.replicate ((MovieRepository.movieGenres db m).filter
            (fun gr => ilikeContains g gr.name)).length m :=
      List.map_const' _ _
    have hnotin : m ∉ MovieRepository.genreJoinRows db g rest := by
      intro hmem
      obtain ⟨a, ha, hma⟩ := List.mem_flatMap.mp hmem
      obtain ⟨x, hx, hxa⟩ := List.mem_map.mp hma
      exact hm (hxa ▸ ha)
    show (((MovieRepository.movieGenres db m).filter (fun gr => ilikeContains g gr.name)).map
        (fun _ => m) ++ MovieRepository.genreJoinRows db g rest).dedup = _
    rw [hrep, dedup_replicate_append m _ _ hnotin, ih hrest]
    by_cases hk : ((MovieRepository.movieGenres db m).filter
        (fun gr => ilikeContains g gr.name)).length = 0
    · rw [if_pos hk]
      have hany : (MovieRepository.movieGenres db m).any (fun gr => ilikeContains g gr.name)
          = false := by
        rw [List.any_eq_false]
        intro x hx hpx
        have : x ∈ (MovieRepository.movieGenres db m).filter
            (fun gr => ilikeContains g gr.name) := List.mem_filter.mpr ⟨hx, hpx⟩
        rw [List.length_eq_zero.mp hk] at this
        exact (List.not_mem_nil x) this
      rw [List.filter_cons, hany]
      simp
    · rw [if_neg hk]
      have hany : (MovieRepository.movieGenres db m).any (fun gr => ilikeContains g gr.name)
          = true := by
        have hne : (MovieRepository.movieGenres db m).filter
            (fun gr => ilikeContains g gr.name) ≠ [] := by
          intro hnil
          exact hk (by rw [hnil]; rfl)
        obtain ⟨x, hx⟩ := List.exists_mem_of_ne_nil _ hne
        have h2 := List.mem_filter.mp hx
        exact List.any_eq_true.mpr ⟨x, h2.1, h2.2⟩
      rw [List.filter_cons, hany]
      simp

/-- The title filter is a list filter by the title condition. -/
theorem applyTitleFilter_eq (t : Option String) (l : List Movie) :
    MovieRepository.applyTitleFilter t l = l.filter (titlePred t) := by
  cases t with
  | none =>
    show l = l.filter (titlePred none)
    rw [show titlePred none = fun _ => true from rfl, List.filter_true]
  | some s =>
    by_cases hs : s = ""
    · subst hs
      show l = l.filter (titlePred (some ""))
      rw [show titlePred (some "") = fun _ => true from rfl, List.filter_true]
    · show (if s = "" then l else l.filter fun m => ilikeContains s m.title)
          = l.filter (titlePred (some s))
      rw [if_neg hs]
      congr 1
      funext m
      simp [titlePred, hs]

/-- The release-year filter is a list filter by the year condition. -/
theorem applyYearFilter_eq (y : Option Int) (l : List Movie) :
    MovieRepository.applyYearFilter y l = l.filter (yearPred y) := by
  cases y with
  | none =>
    show l = l.filter (yearPred none)
    rw [show yearPred none = fun _ => true from rfl, List.filter_true]
  | some v =>
    by_cases hv : v = 0
    · subst hv
      show l = l.filter (yearPred (some 0))
      rw [show yearPred (some 0) = fun _ => true from rfl, List.filter_true]
    · show (if v = 0 then l else l.filter fun m => m.release_year == v)
          = l.filter (yearPred (some v))
      rw [if_neg hv]
      congr 1
      funext m
      simp [yearPred, hv]

/-- The title+year stage of the query filters the movie table by both
conditions. -/
theorem filteredMovies_eq (db : DB) (t : Option String) (y : Option Int) :
    MovieRepository.filteredMovies db t y
      = db.movies.filter (fun m => titlePred t m && yearPred y m) := by
  unfold MovieRepository.filteredMovies
  rw [applyTitleFilter_eq, applyYearFilter_eq, List.filter_filter]
  exact List.filter_congr (fun x _ => Bool.and_comm _ _)

/-- Over a movie table with duplicate-free ids, the distinct row set of a
list query is the movie table filtered by the conjunction of the three
conditions, each movie exactly once. -/
theorem distinctRows_eq_filter (db : DB) (t : Option String) (y : Option Int)
    (g : Option String) (hnd : (db.movies.map Movie.id).Nodup) :
    MovieRepository.distinctRows db t y g
      = db.movies.filter (matchesFilters db t y g) := by
  have hndm : db.movies.Nodup := List.Nodup.of_map _ hnd
  have hfil : (MovieRepository.filteredMovies db t y).Nodup := by
    rw [filteredMovies_eq]
    exact List.Nodup.filter _ hndm
  unfold MovieRepository.distinctRows MovieRepository.queryRows
  cases g with
  | none =>
    rw [List.dedup_eq_self.mpr hfil, filteredMovies_eq]
    apply List.filter_congr
    intro m hm
    simp [matchesFilters, genrePred]
  | some s =>
    show (if s = "" then MovieRepository.filteredMovies db t y
        else MovieRepository.genreJoinRows db s (MovieRepository.filteredMovies db t y)).dedup
        = List.filter (matchesFilters db t y (some s)) db.movies
    by_cases hs : s = ""
    · rw [if_pos hs, List.dedup_eq_self.mpr hfil, filteredMovies_eq]
      apply List.filter_congr
      intro m hm
      simp [matchesFilters, genrePred, hs]
    · rw [if_neg hs, genreJoinRows_dedup db s _ hfil, filteredMovies_eq, List.filter_filter]
      apply List.filter_congr
      intro m hm
      cases h1 : titlePred t m <;> cases h2 : yearPred y m <;>
        cases h3 : (MovieRepository.movieGenres db m).any (fun gr => ilikeContains s gr.name) <;>
        simp [matchesFilters, genrePred, hs, h1, h2, h3]

/-- C2: with a genre filter, the row set is de-duplicated by movie before
counting and paging: a movie with several genres matching the filter appears
exactly once (the distinct rows are the filtered movies in table order, and
every movie occurs at most once), and total_count equals the number of
distinct matching movies. -/
theorem C2_genre_distinct (db : DB) (t : Option String) (y : Option Int) (g : String)
    (hnd : (db.movies.map Movie.id).Nodup) (hg : g ≠ "") :
    MovieRepository.distinctRows db t y (some g)
        = (MovieRepository.filteredMovies db t y).filter
            (fun m => (MovieRepository.movieGenres db m).any
              (fun gr => ilikeContains g gr.name)) ∧
    (∀ m : Movie, (MovieRepository.distinctRows db t y (some g)).count m ≤ 1) ∧
    (∀ skip limit : Nat, (MovieRepository.get_all_movies db skip limit t (some g) y).2
        = ((MovieRepository.filteredMovies db t y).filter
            (fun m => (MovieRepository.movieGenres db m).any
              (fun gr => ilikeContains g gr.name))).length) := by
  have hndm : db.movies.Nodup := List.Nodup.of_map _ hnd
  have hfil : (MovieRepository.filteredMovies db t y).Nodup := by
    rw [filteredMovies_eq]
    exact List.Nodup.filter _ hndm
  have hmain : MovieRepository.distinctRows db t y (some g)
      = (MovieRepository.filteredMovies db t y).filter
          (fun m => (MovieRepository.movieGenres db m).any
            (fun gr => ilikeContains g gr.name)) := by
    unfold MovieRepository.distinctRows MovieRepository.queryRows
    show (if g = "" then MovieRepository.filteredMovies db t y
        else MovieRepository.genreJoinRows db g (MovieRepository.filteredMovies db t y)).dedup
        = _
    rw [if_neg hg]
    exact genreJoinRows_dedup db g _ hfil
  refine ⟨hmain, ?_, ?_⟩
  · intro m
    exact List.nodup_iff_count_le_one.mp (List.nodup_dedup _) m
  · intro skip limit
    show (MovieRepository.distinctRows db t y (some g)).length = _
    rw [hmain]

/-- C2 witness: in `w2db` the single movie is linked to genres "Sci-Fi" and
"Science", both matching the filter "sci"; it appears once in the distinct
rows and the total count is 1. -/
theorem C2_genre_distinct_witness :
    MovieRepository.distinctRows w2db none none (some "sci")
        = [⟨1, "A", 2000, none, none, [1, 2]⟩] ∧
    (MovieRepository.get_all_movies w2db 0 10 none (some "sci") none).2 = 1 := by
  have h := C2_genre_distinct w2db none none "sci" (by decide) (by decide)
  exact ⟨h.1, h.2.2 0 10⟩

/-- The ORDER BY stage really sorts by id. -/
theorem sortById_sorted (l : List Movie) :
    List.Sorted MovieRepository.byIdLe (MovieRepository.sortById l) :=
  List.sorted_insertionSort _ _

/-- The ORDER BY stage is a permutation of its input. -/
theorem sortById_perm (l : List Movie) : (MovieRepository.sortById l).Perm l :=
  List.perm_insertionSort _ _

/-- C3: for valid pagination parameters the listed items are in strictly
ascending id order, at most `size` many, obtained by skipping
`(page - 1) * size` movies of the sorted distinct row set; `page = 1` returns
the first `size` matching movies in ascending id order; and the total count
equals the number of movies matching the filters, independent of page and
size. -/
theorem C3_pagination (db : DB) (page size : Nat) (t g : Option String) (y : Option Int)
    (hnd : (db.movies.map Movie.id).Nodup) (hpage : 1 ≤ page) :
    ((MovieController.get_movies db page size t g y).1.map
        MovieRepository.MovieResponse.id).Sorted (· < ·) ∧
    (MovieController.get_movies db page size t g y).1.length ≤ size ∧
    (MovieController.get_movies db page size t g y).1
        = (((MovieRepository.sortById (MovieRepository.distinctRows db t y g)).drop
              ((page - 1) * size)).take size).map
            (fun m => MovieRepository.format_movie_response db m false) ∧
    (MovieController.get_movies db page size t g y).2
        = (db.movies.filter (matchesFilters db t y g)).length ∧
    (page = 1 →
        (MovieController.get_movies db page size t g y).1
          = ((MovieRepository.sortById (db.movies.filter (matchesFilters db t y g))).take
              size).map (fun m => MovieRepository.format_movie_response db m false)) := by
  have hrowsnd : ((MovieRepository.distinctRows db t y g).map Movie.id).Nodup := by
    rw [distinctRows_eq_filter db t y g hnd]
    exact List.Sublist.nodup (List.Sublist.map Movie.id (List.filter_sublist _)) hnd
  have hperm := sortById_perm (MovieRepository.distinctRows db t y g)
  have hnd2 : ((MovieRepository.sortById (MovieRepository.distinctRows db t y g)).map
      Movie.id).Nodup :=
    ((hperm.symm).map Movie.id).nodup hrowsnd
  have hsortedids : ((MovieRepository.sortById (MovieRepository.distinctRows db t y g)).map
      Movie.id).Sorted (· ≤ ·) :=
    List.pairwise_map.mpr (sortById_sorted (MovieRepository.distinctRows db t y g))
  have hstrict : ((MovieRepository.sortById (MovieRepository.distinctRows db t y g)).map
      Movie.id).Sorted (· < ·) := List.Sorted.lt_of_le hsortedids hnd2
  have hitems : (MovieController.get_movies db page size t g y).1.map
      MovieRepository.MovieResponse.id
      = (((MovieRepository.sortById (MovieRepository.distinctRows db t y g)).drop
          ((page - 1) * size)).take size).map Movie.id := by
    show ((((MovieRepository.sortById (MovieRepository.distinctRows db t y g)).drop
        ((page - 1) * size)).take size).map
        (fun m => MovieRepository.format_movie_response db m false)).map
        MovieRepository.MovieResponse.id = _
    rw [List.map_map]
    rfl
  refine ⟨?_, ?_, rfl, ?_, ?_⟩
  · rw [hitems, List.map_take, List.map_drop]
    exact List.Pairwise.sublist
      ((List.take_sublist _ _).trans (List.drop_sublist _ _)) hstrict
  · show ((((MovieRepository.sortById (MovieRepository.distinctRows db t y g)).drop
        ((page - 1) * size)).take size).map
        (fun m => MovieRepository.format_movie_response db m false)).length ≤ size
    rw [List.length_map, List.length_take]
    exact min_le_left _ _
  · show (MovieRepository.distinctRows db t y g).length = _
    rw [distinctRows_eq_filter db t y g hnd]
  · intro hp
    subst hp
    show (((MovieRepository.sortById (MovieRepository.distinctRows db t y g)).drop
        ((1 - 1) * size)).take size).map
        (fun m => MovieRepository.format_movie_response db m false) = _
    rw [distinctRows_eq_filter db t y g hnd]
    norm_num

/-- C3 witness: in `w3db` (movies stored as ids 2, 1, 3), page 1 of size 2
with no filters is sorted ascending, has at most 2 items, equals the first 2
sorted matching movies, and the total is the number of matching movies. -/
theorem C3_pagination_witness :
    ((MovieController.get_movies w3db 1 2 none none none).1.map
        MovieRepository.MovieResponse.id).Sorted (· < ·) ∧
    (MovieController.get_movies w3db 1 2 none none none).1.length ≤ 2 ∧
    (MovieController.get_movies w3db 1 2 none none none).2
        = (w3db.movies.filter (matchesFilters w3db none none none)).length ∧
    (MovieController.get_movies w3db 1 2 none none none).1
        = ((MovieRepository.sortById (w3db.movies.filter
            (matchesFilters w3db none none none))).take 2).map
            (fun m => MovieRepository.format_movie_response w3db m false) := by
  have h := C3_pagination w3db 1 2 none none none (by decide) (by decide)
  exact ⟨h.1, h.2.1, h.2.2.2.1, h.2.2.2.2 rfl⟩

/-- `likeStar f` accepts a string iff `f` accepts one of its suffixes. -/
theorem likeStar_eq_true_iff (f : List Char → Bool) (s : List Char) :
    likeStar f s = true ↔ ∃ n, f (s.drop n) = true := by
  induction s with
  | nil => simp [likeStar, List.drop_nil]
  | cons c cs ih =>
    show (f (c :: cs) || likeStar f cs) = true ↔ _
    rw [Bool.or_eq_true, ih]
    constructor
    · rintro (h | ⟨n, hn⟩)
      · exact ⟨0, h⟩
      · exact ⟨n + 1, hn⟩
    · rintro ⟨n, hn⟩
      cases n with
      | zero => exact Or.inl hn
      | succ k => exact Or.inr ⟨k, hn⟩

/-- The pattern `%` alone matches everything. -/
theorem likeM_percent_any (s : List Char) : likeM ['%'] s = true := by
  rw [show likeM ['%'] s = likeStar (likeM []) s from rfl, likeStar_eq_true_iff]
  exact ⟨s.length, by simp [likeM, List.drop_length]⟩

/-- A wildcard-free pattern segment matches literally: `p ++ q` matches `s`
iff `s` starts with `p` and `q` matches the rest. -/
theorem likeM_literal_append (q : List Char) : ∀ p s : List Char,
    p.all (fun c => !(c == '%' || c == '_')) = true →
    (likeM (p ++ q) s = true ↔ ∃ t, s = p ++ t ∧ likeM q t = true) := by
  intro p
  induction p with
  | nil =>
    intro s hp
    simp
  | cons a as ih =>
    intro s hp
    rw [List.all_cons, Bool.and_eq_true] at hp
    obtain ⟨ha, has⟩ := hp
    have ha1 : a ≠ '%' := by
      intro h
      subst h
      simp at ha
    have ha2 : a ≠ '_' := by
      intro h
      subst h
      simp at ha
    show likeM (a :: (as ++ q)) s = true ↔ _
    rw [show likeM (a :: (as ++ q)) s
        = (if a = '%' then likeStar (likeM (as ++ q)) s
           else if a = '_' then
             (match s with
               | [] => false
               | _ :: cs => likeM (as ++ q) cs)
           else
             (match s with
               | [] => false
               | c :: cs => (c == a) && likeM (as ++ q) cs)) from rfl,
        if_neg ha1, if_neg ha2]
    cases s with
    | nil => simp
    | cons b bs =>
      show ((b == a) && likeM (as ++ q) bs) = true ↔ _
      rw [Bool.and_eq_true, ih bs has]
      constructor
      · rintro ⟨hba, t, rfl, hq⟩
        refine ⟨t, ?_, hq⟩
        rw [show b = a from by simpa using hba]
        rfl
      · rintro ⟨t, hst, hq⟩
        rw [List.cons_append] at hst
        simp only [List.cons.injEq] at hst
        exact ⟨by simp [hst.1], t, hst.2, hq⟩

/-- Boolean prefix test agrees with the prefix decomposition. -/
theorem isPrefixCB_iff (p : List Char) : ∀ s : List Char,
    isPrefixCB p s = true ↔ ∃ t, s = p ++ t := by
  induction p with
  | nil =>
    intro s
    simp [isPrefixCB]
  | cons a as ih =>
    intro s
    cases s with
    | nil => simp [isPrefixCB]
    | cons b bs =>
      show ((a == b) && isPrefixCB as bs) = true ↔ _
      rw [Bool.and_eq_true, ih bs]
      constructor
      · rintro ⟨hb, t, rfl⟩
        refine ⟨t, ?_⟩
        rw [show b = a from (by simpa using (hb : (a == b) = true) : a = b).symm]
        rfl
      · rintro ⟨t, ht⟩
        rw [List.cons_append] at ht
        simp only [List.cons.injEq] at ht
        exact ⟨by simp [ht.1], t, ht.2⟩

/-- Boolean substring test: `p` occurs in `s` iff it is a prefix of some
suffix. -/
theorem isSubstrCB_iff (p : List Char) : ∀ s : List Char,
    isSubstrCB p s = true ↔ ∃ n, isPrefixCB p (s.drop n) = true := by
  intro s
  induction s with
  | nil =>
    cases p with
    | nil => simp [isSubstrCB, isPrefixCB]
    | cons a as => simp [isSubstrCB, isPrefixCB, List.drop_nil]
  | cons c cs ih =>
    show (isPrefixCB p (c :: cs) || isSubstrCB p cs) = true ↔ _
    rw [Bool.or_eq_true, ih]
    constructor
    · rintro (h | ⟨n, hn⟩)
      · exact ⟨0, h⟩
      · exact ⟨n + 1, hn⟩
    · rintro ⟨n, hn⟩
      cases n with
      | zero => exact Or.inl hn
      | succ k => exact Or.inr ⟨k, hn⟩

/-- For a wildcard-free filter, the SQL pattern `%p%` matches exactly the
strings containing `p`. -/
theorem likeM_wrapped_iff (p s : List Char)
    (hp : p.all (fun c => !(c == '%' || c == '_')) = true) :
    likeM ('%' :: (p ++ ['%'])) s = true ↔ isSubstrCB p s = true := by
  rw [show likeM ('%' :: (p ++ ['%'])) s = likeStar (likeM (p ++ ['%'])) s from rfl,
      likeStar_eq_true_iff, isSubstrCB_iff]
  constructor
  · rintro ⟨n, hn⟩
    obtain ⟨t, hdrop, _⟩ := (likeM_literal_append ['%'] p (s.drop n) hp).mp hn
    refine ⟨n, ?_⟩
    rw [hdrop]
    exact (isPrefixCB_iff p _).mpr ⟨t, rfl⟩
  · rintro ⟨n, hn⟩
    obtain ⟨t, ht⟩ := (isPrefixCB_iff p _).mp hn
    exact ⟨n, (likeM_literal_append ['%'] p (s.drop n) hp).mpr ⟨t, ht, likeM_percent_any t⟩⟩

/-- For a wildcard-free filter string, the repository's ILIKE test coincides
with the spec's case-insensitive substring containment. -/
theorem ilikeContains_iff_specContains (pat s : String) (h : noWildcards pat = true) :
    ilikeContains pat s = true ↔ specContainsCI s pat = true := by
  unfold ilikeContains specContainsCI
  exact likeM_wrapped_iff (lowerStr pat) (lowerStr s) h

/-- C4 counterexample: with the title filter `"%"` (a LIKE wildcard), the
movie titled "abc" is returned although its title does not contain the filter
string as a substring — so "matches only if the title contains the filter
string" fails for filter strings with wildcard characters. -/
theorem C4_wildcard_counterexample :
    (MovieRepository.get_all_movies c4db 0 10 (some "%") none none).1.map
        MovieRepository.MovieResponse.id = [1] ∧
    specContainsCI "abc" "%" = false := by
  exact ⟨by decide, by decide⟩

/-- C4 amended: for truthy filters whose strings contain no LIKE wildcard
(`%`, `_`), the filters compose with logical AND: a movie is in the distinct
result set iff it is a stored movie whose title contains the title filter
case-insensitively as a substring, whose release year equals the year filter
exactly, and at least one of whose associated genres' names contains the
genre filter case-insensitively as a substring.  (Filter strings containing
wildcards are interpreted as SQL LIKE patterns instead.) -/
theorem C4_filters_compose (db : DB) (t : String) (y : Int) (g : String) (m : Movie)
    (ht : t ≠ "") (hy : y ≠ 0) (hg : g ≠ "")
    (hwt : noWildcards t = true) (hwg : noWildcards g = true) :
    m ∈ MovieRepository.distinctRows db (some t) (some y) (some g)
      ↔ (m ∈ db.movies ∧ specContainsCI m.title t = true ∧ m.release_year = y ∧
          ∃ gr ∈ MovieRepository.movieGenres db m, specContainsCI gr.name g = true) := by
  have hbt : ∀ s : String, ilikeContains t s = true ↔ specContainsCI s t = true :=
    fun s => ilikeContains_iff_specContains t s hwt
  have hbg : ∀ s : String, ilikeContains g s = true ↔ specContainsCI s g = true :=
    fun s => ilikeContains_iff_specContains g s hwg
  unfold MovieRepository.distinctRows
  rw [List.mem_dedup]
  show m ∈ (if g = "" then MovieRepository.filteredMovies db (some t) (some y)
      else MovieRepository.genreJoinRows db g
        (MovieRepository.filteredMovies db (some t) (some y))) ↔ _
  rw [if_neg hg]
  unfold MovieRepository.genreJoinRows
  rw [List.mem_flatMap]
  constructor
  · rintro ⟨a, ha, hma⟩
    obtain ⟨x, hx, hxm⟩ := List.mem_map.mp hma
    cases hxm
    rw [filteredMovies_eq] at ha
    obtain ⟨hmm, hcond⟩ := List.mem_filter.mp ha
    rw [Bool.and_eq_true] at hcond
    obtain ⟨hT, hY⟩ := hcond
    have hT' : ilikeContains t m.title = true := by simpa [titlePred, ht] using hT
    have hY' : m.release_year = y := by simpa [yearPred, hy] using hY
    obtain ⟨hxg, hxl⟩ := List.mem_filter.mp hx
    exact ⟨hmm, (hbt _).mp hT', hY', ⟨x, hxg, (hbg _).mp hxl⟩⟩
  · rintro ⟨hmm, hT, hY, x, hxg, hxl⟩
    refine ⟨m, ?_, ?_⟩
    · rw [filteredMovies_eq]
      refine List.mem_filter.mpr ⟨hmm, ?_⟩
      rw [Bool.and_eq_true]
      refine ⟨?_, ?_⟩
      · simpa [titlePred, ht] using (hbt _).mpr hT
      · simpa [yearPred, hy] using hY
    · exact List.mem_map.mpr ⟨x, List.mem_filter.mpr ⟨hxg, (hbg _).mpr hxl⟩, rfl⟩

/-- C4 witness: in `w4db`, the movie "Inception" (year 2010, genre "Action")
with filters title "ception", year 2010, genre "act" (all wildcard-free). -/
theorem C4_filters_compose_witness :
    w4m ∈ MovieRepository.distinctRows w4db (some "ception") (some 2010) (some "act")
      ↔ (w4m ∈ w4db.movies ∧ specContainsCI w4m.title "ception" = true ∧
          w4m.release_year = 2010 ∧
          ∃ gr ∈ MovieRepository.movieGenres w4db w4m,
            specContainsCI gr.name "act" = true) :=
  C4_filters_compose w4db "ception" 2010 "act" w4m (by decide) (by decide) (by decide)
    (by decide) (by decide)
